import Mathlib

/-!
Shallow embedding of the remote account cloner worker of the
`magicblock-account-cloner` crate
(`src/magicblock-account-cloner/src/remote_account_cloner_worker.rs`).

Pubkeys, slots, signatures and opaque collaborator errors are modelled as
natural numbers.  The collaborators (internal account provider, account
fetcher, account updates, account dumper) are modelled as oracle functions
stored in the worker structure; the fetcher oracle is indexed by the global
count of fetcher invocations so that successive fetch attempts may return
different results, exactly as the real asynchronous fetcher may.  The
mutable state of the worker (the `last_clone_output` cache) together with
instrumentation counters (number of fetcher calls, number of dumper calls,
the `Signature::new_unique` counter) is threaded explicitly through every
operation.
-/

set_option linter.unreachableTactic false
set_option linter.unusedTactic false
set_option linter.unnecessarySeqFocus false

namespace Cloner

/-- 32-byte account key, modelled as a natural number; `Pubkey::default()`
is modelled as `0`. -/
abbrev Pubkey := Nat

/-- Chain slot (`u64`). -/
abbrev Slot := Nat

/-- Transaction signature, modelled as a natural number. -/
abbrev Signature := Nat

/-- `u64::MAX`, which the source uses as the "forever / never" sentinel
slot (written `∞` in the specification). -/
def u64MAX : Nat := 2 ^ 64 - 1

/-- The fixed pubkey of the deprecated BPF loader
(`solana_sdk::bpf_loader_deprecated::ID`). -/
def bpf_loader_deprecated_ID : Pubkey := 101

/-- The fixed pubkey of the legacy (non-upgradable) BPF loader
(`solana_sdk::bpf_loader::ID`). -/
def bpf_loader_ID : Pubkey := 102

/-- The fixed pubkey of the upgradable BPF loader
(`solana_sdk::bpf_loader_upgradeable::ID`). -/
def bpf_loader_upgradeable_ID : Pubkey := 103

/-- An on-chain account: lamports, owner, executable flag and opaque data
(`solana_sdk::account::Account`, with the fields the worker reads). -/
structure Account where
  lamports : Nat
  owner : Pubkey
  executable : Bool
  data : List Nat
  deriving DecidableEq, Repr

/-- A delegation record (`conjunto_transwise::DelegationRecord`):
authority, original owner, the slot at which the delegation happened and
the commit frequency. -/
structure DelegationRecord where
  authority : Pubkey
  owner : Pubkey
  delegation_slot : Slot
  commit_frequency : Nat
  deriving DecidableEq, Repr

/-- The classification of an account's chain state produced by the fetcher
(`conjunto_transwise::AccountChainState`). -/
inductive AccountChainState where
  | FeePayer (lamports : Nat) (owner : Pubkey)
  | Undelegated (account : Account)
  | Delegated (account : Account) (delegation_record : DelegationRecord)
  deriving DecidableEq, Repr

/-- `AccountChainState::account()`: the account carried by the state, when
there is one (a fee payer carries none). -/
def AccountChainState.account : AccountChainState → Option Account
  | .FeePayer _ _ => none
  | .Undelegated a => some a
  | .Delegated a _ => some a

/-- A snapshot of an account's chain state at a given slot
(`conjunto_transwise::AccountChainSnapshot`). -/
structure AccountChainSnapshot where
  pubkey : Pubkey
  at_slot : Slot
  chain_state : AccountChainState
  deriving DecidableEq, Repr

/-- The reasons an account may be refused cloning
(`AccountClonerUnclonableReason`), spelled as in the source. -/
inductive AccountClonerUnclonableReason where
  | NoCloningAllowed
  | IsBlacklisted
  | IsNotAnAllowedProgram
  | AlreadyLocallyOverriden
  | DoesNotAllowFeePayerAccount
  | DoesNotAllowUndelegatedAccount
  | DoesNotAllowDelegatedAccount
  | DoesNotAllowProgramAccount
  deriving DecidableEq, Repr

/-- The outcome of a clone request stored in the worker's cache
(`AccountClonerOutput`). -/
inductive AccountClonerOutput where
  | Cloned (account_chain_snapshot : AccountChainSnapshot)
      (signature : Signature)
  | Unclonable (pubkey : Pubkey)
      (reason : AccountClonerUnclonableReason) (at_slot : Slot)
  deriving DecidableEq, Repr

/-- The errors surfaced by the cloner (`AccountClonerError`); collaborator
errors carry an opaque numeric payload. -/
inductive AccountClonerError where
  | AccountFetcherError (e : Nat)
  | AccountUpdatesError (e : Nat)
  | AccountDumperError (e : Nat)
  | FailedToFetchSatisfactorySlot
  | ProgramDataDoesNotExist
  deriving DecidableEq, Repr

instance instDecEqExcept {ε α : Type} [DecidableEq ε] [DecidableEq α] :
    DecidableEq (Except ε α)
  | .error a, .error b =>
    if h : a = b then .isTrue (by rw [h]) else .isFalse (by simp [h])
  | .error _, .ok _ => .isFalse (by simp)
  | .ok _, .error _ => .isFalse (by simp)
  | .ok a, .ok b =>
    if h : a = b then .isTrue (by rw [h]) else .isFalse (by simp [h])

/-- The cloning permission bits (`AccountClonerPermissions`). -/
structure AccountClonerPermissions where
  allow_cloning_refresh : Bool
  allow_cloning_feepayer_accounts : Bool
  allow_cloning_undelegated_accounts : Bool
  allow_cloning_delegated_accounts : Bool
  allow_cloning_program_accounts : Bool
  deriving DecidableEq, Repr

/-- The validator stage (`ValidatorStage`). -/
inductive ValidatorStage where
  | Hydrating (validator_identity : Pubkey) (account_owner : Pubkey)
  | Running
  deriving DecidableEq, Repr

/-- `ValidatorStage::should_clone_delegated_account`: during hydration a
delegated account is re-cloned only when it is not delegated to this
validator; the authority is consulted when set, and otherwise the local
owner of the account is compared with the delegation record's owner. -/
def should_clone_delegated_account
    (stage : ValidatorStage) (record : DelegationRecord) : Bool :=
  match stage with
  | .Hydrating validator_identity account_owner =>
    if record.authority ≠ (0 : Pubkey) then
      record.authority ≠ validator_identity
    else
      account_owner ≠ record.owner
  | .Running => true

/-- The immutable part of `RemoteAccountClonerWorker`: configuration plus
the collaborator oracles.  The fetcher oracle takes the index of the call
(the running count of fetcher invocations) so successive attempts may
differ. -/
structure RemoteAccountClonerWorker where
  allowed_program_ids : Option (List Pubkey)
  blacklisted_accounts : List Pubkey
  payer_init_lamports : Option Nat
  permissions : AccountClonerPermissions
  fetch_retries : Nat
  validator_identity : Pubkey
  iapHasAccount : Pubkey → Bool
  iapAllAccounts : List (Pubkey × Account)
  getLastKnownUpdateSlot : Pubkey → Option Slot
  getFirstSubscribedSlot : Pubkey → Option Slot
  ensureAccountMonitoring : Pubkey → Except Nat Unit
  fetcher : Nat → Pubkey → Option Slot → Except Nat AccountChainSnapshot
  dumpFeepayerAccount : Pubkey → Nat → Pubkey → Except Nat Signature
  dumpUndelegatedAccount : Pubkey → Account → Except Nat Signature
  dumpDelegatedAccount : Pubkey → Account → Pubkey → Except Nat Signature
  dumpProgramAccountWithOldBpf : Pubkey → Account → Except Nat Signature
  dumpProgramAccounts :
    Pubkey → Account → Pubkey → Account → Option (Pubkey × Account) →
      Except Nat Signature
  programDataAddress : Pubkey → Pubkey
  anchorIdlAddress : Pubkey → Option Pubkey
  shankIdlAddress : Pubkey → Option Pubkey

/-- The mutable state threaded through the worker's operations: the
`last_clone_output` cache, the count of fetcher invocations, the count of
dumper invocations and the `Signature::new_unique` counter. -/
structure ClonerState where
  cache : Pubkey → Option AccountClonerOutput
  fetch_calls : Nat
  dump_calls : Nat
  sig_counter : Nat

/-- `RemoteAccountClonerWorker::can_clone`: at least one of the four
cloning permission bits is set. -/
def can_clone (w : RemoteAccountClonerWorker) : Bool :=
  w.permissions.allow_cloning_feepayer_accounts
    || w.permissions.allow_cloning_undelegated_accounts
    || w.permissions.allow_cloning_delegated_accounts
    || w.permissions.allow_cloning_program_accounts

/-- `fetch_account_chain_snapshot`: one fetcher invocation, with the
fetcher's error wrapped in `AccountFetcherError`; the fetch-call counter
advances whether or not the fetch succeeds. -/
def fetch_account_chain_snapshot (w : RemoteAccountClonerWorker)
    (st : ClonerState) (pubkey : Pubkey) (min_context_slot : Option Slot) :
    Except AccountClonerError AccountChainSnapshot × ClonerState :=
  (match w.fetcher st.fetch_calls pubkey min_context_slot with
    | .ok s => .ok s
    | .error e => .error (.AccountFetcherError e),
   { st with fetch_calls := st.fetch_calls + 1 })

/-- The fetch-with-freshness retry loop inside `do_clone`: each iteration
fetches with `min_context_slot = get_first_subscribed_slot`, accepts a
snapshot whose slot is at least the first subscribed slot (`u64::MAX` when
there is none), and otherwise retries until `fetch_count` reaches
`fetch_retries`, at which point a stale success becomes
`FailedToFetchSatisfactorySlot` and a fetch error is propagated. -/
def fetch_with_retries (w : RemoteAccountClonerWorker) (pubkey : Pubkey)
    (st : ClonerState) (fetch_count : Nat) :
    Except AccountClonerError AccountChainSnapshot × ClonerState :=
  match fetch_account_chain_snapshot w st pubkey
      (w.getFirstSubscribedSlot pubkey) with
  | (.ok s, st') =>
    if s.at_slot ≥ (w.getFirstSubscribedSlot pubkey).getD u64MAX then
      (.ok s, st')
    else if h : fetch_count ≥ w.fetch_retries then
      (.error .FailedToFetchSatisfactorySlot, st')
    else
      fetch_with_retries w pubkey st' (fetch_count + 1)
  | (.error e, st') =>
    if h : fetch_count ≥ w.fetch_retries then
      (.error e, st')
    else
      fetch_with_retries w pubkey st' (fetch_count + 1)
termination_by w.fetch_retries - fetch_count
decreasing_by all_goals omega

/-- The snapshot-acquisition phase of `do_clone` (the `let
account_chain_snapshot = ...` block): with refresh allowed, ensure
monitoring and run the retry loop starting at `fetch_count = 1`; without
refresh, a single fetch with no minimum context slot. -/
def acquire_snapshot (w : RemoteAccountClonerWorker) (st : ClonerState)
    (pubkey : Pubkey) :
    Except AccountClonerError AccountChainSnapshot × ClonerState :=
  if w.permissions.allow_cloning_refresh then
    match w.ensureAccountMonitoring pubkey with
    | .error e => (.error (.AccountUpdatesError e), st)
    | .ok _ => fetch_with_retries w pubkey st 1
  else
    fetch_account_chain_snapshot w st pubkey none

/-- `do_clone_feepayer_account`: dump a fee-payer account, with
`payer_init_lamports` overriding the chain lamports when configured. -/
def do_clone_feepayer_account (w : RemoteAccountClonerWorker)
    (st : ClonerState) (pubkey : Pubkey) (lamports : Nat) (owner : Pubkey) :
    Except AccountClonerError Signature × ClonerState :=
  let lamports := w.payer_init_lamports.getD lamports
  (match w.dumpFeepayerAccount pubkey lamports owner with
    | .ok sig => .ok sig
    | .error e => .error (.AccountDumperError e),
   { st with dump_calls := st.dump_calls + 1 })

/-- `do_clone_undelegated_account`: dump an undelegated account. -/
def do_clone_undelegated_account (w : RemoteAccountClonerWorker)
    (st : ClonerState) (pubkey : Pubkey) (account : Account) :
    Except AccountClonerError Signature × ClonerState :=
  (match w.dumpUndelegatedAccount pubkey account with
    | .ok sig => .ok sig
    | .error e => .error (.AccountDumperError e),
   { st with dump_calls := st.dump_calls + 1 })

/-- The delegation-slot reuse check inside `do_clone_delegated_account`:
the prior signature, when the cache holds a `Cloned` outcome whose
snapshot is `Delegated` with the same delegation slot. -/
def delegated_reuse_signature (st : ClonerState) (pubkey : Pubkey)
    (delegation_slot : Slot) : Option Signature :=
  match st.cache pubkey with
  | some (.Cloned snapshot signature) =>
    match snapshot.chain_state with
    | .Delegated _ record =>
      if record.delegation_slot = delegation_slot then some signature
      else none
    | _ => none
  | _ => none

/-- `do_clone_delegated_account`: reuse the prior signature when the
account was already cloned from the same delegation slot, otherwise dump
the delegated account with the owner override. -/
def do_clone_delegated_account (w : RemoteAccountClonerWorker)
    (st : ClonerState) (pubkey : Pubkey) (account : Account)
    (owner : Pubkey) (delegation_slot : Slot) :
    Except AccountClonerError Signature × ClonerState :=
  match delegated_reuse_signature st pubkey delegation_slot with
  | some signature => (.ok signature, st)
  | none =>
    (match w.dumpDelegatedAccount pubkey account owner with
      | .ok sig => .ok sig
      | .error e => .error (.AccountDumperError e),
     { st with dump_calls := st.dump_calls + 1 })

/-- `try_fetch_program_idl_snapshot`: fetch the IDL account at a derived
address, when one is derivable and present. -/
def try_fetch_program_idl_snapshot (w : RemoteAccountClonerWorker)
    (st : ClonerState) (program_idl_pubkey : Option Pubkey)
    (min_context_slot : Option Slot) :
    Except AccountClonerError (Option (Pubkey × Account)) × ClonerState :=
  match program_idl_pubkey with
  | some p =>
    (match fetch_account_chain_snapshot w st p min_context_slot with
      | (.error e, st') => (.error e, st')
      | (.ok snap, st') =>
        match snap.chain_state.account with
        | some a => (.ok (some (p, a)), st')
        | none => (.ok none, st'))
  | none => (.ok none, st)

/-- `fetch_program_idl`: try the Anchor-derived IDL address first, then
the Shank-derived one, then give up. -/
def fetch_program_idl (w : RemoteAccountClonerWorker) (st : ClonerState)
    (program_id_pubkey : Pubkey) (min_context_slot : Option Slot) :
    Except AccountClonerError (Option (Pubkey × Account)) × ClonerState :=
  match try_fetch_program_idl_snapshot w st
      (w.anchorIdlAddress program_id_pubkey) min_context_slot with
  | (.error e, st') => (.error e, st')
  | (.ok (some idl), st') => (.ok (some idl), st')
  | (.ok none, st') =>
    match try_fetch_program_idl_snapshot w st'
        (w.shankIdlAddress program_id_pubkey) min_context_slot with
    | (.error e, st'') => (.error e, st'')
    | (.ok (some idl), st'') => (.ok (some idl), st'')
    | (.ok none, st'') => (.ok none, st'')

/-- `do_clone_program_accounts`: deprecated-loader programs fail with
`ProgramDataDoesNotExist`; legacy-loader programs take their dedicated
dump path; upgradable-loader programs fetch the derived program-data
account (which must be present) and the optional IDL, then dump the
program accounts together. -/
def do_clone_program_accounts (w : RemoteAccountClonerWorker)
    (st : ClonerState) (pubkey : Pubkey) (account : Account)
    (min_context_slot : Option Slot) :
    Except AccountClonerError Signature × ClonerState :=
  if account.owner = bpf_loader_deprecated_ID then
    (.error .ProgramDataDoesNotExist, st)
  else if account.owner = bpf_loader_ID then
    (match w.dumpProgramAccountWithOldBpf pubkey account with
      | .ok sig => .ok sig
      | .error e => .error (.AccountDumperError e),
     { st with dump_calls := st.dump_calls + 1 })
  else
    match fetch_account_chain_snapshot w st (w.programDataAddress pubkey)
        min_context_slot with
    | (.error e, st') => (.error e, st')
    | (.ok program_data_snapshot, st') =>
      match program_data_snapshot.chain_state.account with
      | none => (.error .ProgramDataDoesNotExist, st')
      | some program_data_account =>
        match fetch_program_idl w st' pubkey min_context_slot with
        | (.error e, st'') => (.error e, st'')
        | (.ok idl, st'') =>
          (match w.dumpProgramAccounts pubkey account
              (w.programDataAddress pubkey) program_data_account idl with
            | .ok sig => .ok sig
            | .error e => .error (.AccountDumperError e),
           { st'' with dump_calls := st''.dump_calls + 1 })

/-- `do_clone`: refuse blacklisted keys outright, acquire a fresh enough
snapshot, then classify its chain state (fee payer / undelegated data /
undelegated program / delegated) under the permission bits, the
allowed-program set and the stage's delegation policy, dispatching to the
matching dump path; on success the outcome is `Cloned` with the acquired
snapshot and the dump (or reused, or freshly generated) signature. -/
def do_clone (w : RemoteAccountClonerWorker) (st : ClonerState)
    (pubkey : Pubkey) (stage : ValidatorStage) :
    Except AccountClonerError AccountClonerOutput × ClonerState :=
  if w.blacklisted_accounts.contains pubkey then
    (.ok (.Unclonable pubkey .IsBlacklisted u64MAX), st)
  else
    match acquire_snapshot w st pubkey with
    | (.error e, st') => (.error e, st')
    | (.ok account_chain_snapshot, st') =>
      match account_chain_snapshot.chain_state with
      | .FeePayer lamports owner =>
        if !w.permissions.allow_cloning_feepayer_accounts then
          (.ok (.Unclonable pubkey .DoesNotAllowFeePayerAccount
            account_chain_snapshot.at_slot), st')
        else
          (match do_clone_feepayer_account w st' pubkey lamports owner with
            | (.error e, st'') => (.error e, st'')
            | (.ok signature, st'') =>
              (.ok (.Cloned account_chain_snapshot signature), st''))
      | .Undelegated account =>
        if account.executable then
          if (match w.allowed_program_ids with
              | some allowed => !allowed.contains pubkey
              | none => false) then
            (.ok (.Unclonable pubkey .IsNotAnAllowedProgram u64MAX), st')
          else if !w.permissions.allow_cloning_program_accounts then
            (.ok (.Unclonable pubkey .DoesNotAllowProgramAccount
              account_chain_snapshot.at_slot), st')
          else
            (match do_clone_program_accounts w st' pubkey account
                (some account_chain_snapshot.at_slot) with
              | (.error e, st'') => (.error e, st'')
              | (.ok signature, st'') =>
                (.ok (.Cloned account_chain_snapshot signature), st''))
        else
          if !w.permissions.allow_cloning_undelegated_accounts then
            (.ok (.Unclonable pubkey .DoesNotAllowUndelegatedAccount
              account_chain_snapshot.at_slot), st')
          else
            (match do_clone_undelegated_account w st' pubkey account with
              | (.error e, st'') => (.error e, st'')
              | (.ok signature, st'') =>
                (.ok (.Cloned account_chain_snapshot signature), st''))
      | .Delegated account delegation_record =>
        if !w.permissions.allow_cloning_delegated_accounts then
          (.ok (.Unclonable pubkey .DoesNotAllowDelegatedAccount
            account_chain_snapshot.at_slot), st')
        else if !should_clone_delegated_account stage delegation_record then
          (.ok (.Cloned account_chain_snapshot st'.sig_counter),
           { st' with sig_counter := st'.sig_counter + 1 })
        else
          (match do_clone_delegated_account w st' pubkey account
              delegation_record.owner delegation_record.delegation_slot with
            | (.error e, st'') => (.error e, st'')
            | (.ok signature, st'') =>
              (.ok (.Cloned account_chain_snapshot signature), st''))

/-- `do_clone_and_update_cache`: run `do_clone`; on success store the
outcome in the `last_clone_output` cache under the key; on error the
cache is untouched (the `?` operator propagates before the insert). -/
def do_clone_and_update_cache (w : RemoteAccountClonerWorker)
    (st : ClonerState) (pubkey : Pubkey) (stage : ValidatorStage) :
    Except AccountClonerError AccountClonerOutput × ClonerState :=
  match do_clone w st pubkey stage with
  | (.error e, st') => (.error e, st')
  | (.ok updated_clone_output, st') =>
    (.ok updated_clone_output,
     { st' with cache := fun k =>
        if k = pubkey then some updated_clone_output else st'.cache k })

/-- `do_clone_or_use_cache`: refuse everything when no permission bit is
set; otherwise consult the cache against the last known update slot
(defaulting to `u64::MIN` when unknown), returning a fresh enough cached
outcome directly, answering `AlreadyLocallyOverriden` for an uncached key
the local bank already holds, and refreshing through
`do_clone_and_update_cache` in stage `Running` otherwise. -/
def do_clone_or_use_cache (w : RemoteAccountClonerWorker)
    (st : ClonerState) (pubkey : Pubkey) :
    Except AccountClonerError AccountClonerOutput × ClonerState :=
  if !can_clone w then
    (.ok (.Unclonable pubkey .NoCloningAllowed u64MAX), st)
  else
    let last_known_update_slot :=
      (w.getLastKnownUpdateSlot pubkey).getD 0
    match st.cache pubkey with
    | some (.Cloned snapshot signature) =>
      if snapshot.at_slot ≥ last_known_update_slot then
        (.ok (.Cloned snapshot signature), st)
      else
        do_clone_and_update_cache w st pubkey .Running
    | some (.Unclonable p reason until_slot) =>
      if until_slot ≥ last_known_update_slot then
        (.ok (.Unclonable p reason until_slot), st)
      else
        do_clone_and_update_cache w st pubkey .Running
    | none =>
      if w.iapHasAccount pubkey then
        (.ok (.Unclonable pubkey .AlreadyLocallyOverriden u64MAX), st)
      else
        do_clone_and_update_cache w st pubkey .Running

/-- The key/owner pairs `hydrate` iterates over: all accounts of the
internal account provider except blacklisted keys, accounts whose
lamports exceed `u64::MAX / 2`, and non-executable accounts owned by the
upgradable BPF loader (program-data accounts), deduplicated as by the
`HashSet` collect. -/
def hydrate_entries (w : RemoteAccountClonerWorker) :
    List (Pubkey × Pubkey) :=
  (((w.iapAllAccounts.filter
      (fun pa => !w.blacklisted_accounts.contains pa.1)).filter
      (fun pa =>
        if pa.2.lamports > u64MAX / 2 then false
        else if !pa.2.executable && pa.2.owner = bpf_loader_upgradeable_ID
        then false
        else true)).map
      (fun pa => (pa.1, pa.2.owner))).dedup

/-- `hydrate`: when cloning is enabled at all, run
`do_clone_and_update_cache` in stage `Hydrating` over every hydrate
entry, ignoring (only logging) per-account errors. -/
def hydrate (w : RemoteAccountClonerWorker) (st : ClonerState) :
    ClonerState :=
  if !can_clone w then st
  else
    (hydrate_entries w).foldl
      (fun st pa =>
        (do_clone_and_update_cache w st pa.1
          (.Hydrating w.validator_identity pa.2)).2)
      st

/-! ## Concrete fixtures used by witnesses and counterexamples -/

/-- A plain non-executable account. -/
def account_plain : Account :=
  { lamports := 10, owner := 50, executable := false, data := [] }

/-- A delegation record with no authority, owner 50, delegation slot 42. -/
def record42 : DelegationRecord :=
  { authority := 0, owner := 50, delegation_slot := 42,
    commit_frequency := 1 }

/-- A delegated snapshot of key 7 taken at slot 10. -/
def snap_delegated_old : AccountChainSnapshot :=
  { pubkey := 7, at_slot := 10,
    chain_state := .Delegated account_plain record42 }

/-- A delegated snapshot of key 7 taken at slot 20 (same delegation slot
as `snap_delegated_old`). -/
def snap_delegated_new : AccountChainSnapshot :=
  { pubkey := 7, at_slot := 20,
    chain_state := .Delegated account_plain record42 }

/-- All cloning permissions granted, refresh disabled. -/
def permissions_all : AccountClonerPermissions :=
  { allow_cloning_refresh := false,
    allow_cloning_feepayer_accounts := true,
    allow_cloning_undelegated_accounts := true,
    allow_cloning_delegated_accounts := true,
    allow_cloning_program_accounts := true }

/-- No cloning permission granted. -/
def permissions_none : AccountClonerPermissions :=
  { allow_cloning_refresh := false,
    allow_cloning_feepayer_accounts := false,
    allow_cloning_undelegated_accounts := false,
    allow_cloning_delegated_accounts := false,
    allow_cloning_program_accounts := false }

/-- A concrete worker with benign collaborators: nothing blacklisted, all
permissions except refresh, a fetcher that always returns
`snap_delegated_new`, a last known update slot of 20 and no subscription
slot. -/
def worker_base : RemoteAccountClonerWorker :=
  { allowed_program_ids := none, blacklisted_accounts := [],
    payer_init_lamports := none, permissions := permissions_all,
    fetch_retries := 5, validator_identity := 1,
    iapHasAccount := fun _ => false, iapAllAccounts := [],
    getLastKnownUpdateSlot := fun _ => some 20,
    getFirstSubscribedSlot := fun _ => none,
    ensureAccountMonitoring := fun _ => .ok (),
    fetcher := fun _ _ _ => .ok snap_delegated_new,
    dumpFeepayerAccount := fun _ _ _ => .ok 500,
    dumpUndelegatedAccount := fun _ _ => .ok 501,
    dumpDelegatedAccount := fun _ _ _ => .ok 502,
    dumpProgramAccountWithOldBpf := fun _ _ => .ok 503,
    dumpProgramAccounts := fun _ _ _ _ _ => .ok 504,
    programDataAddress := fun p => p + 1000,
    anchorIdlAddress := fun _ => none,
    shankIdlAddress := fun _ => none }

/-- The empty worker state. -/
def state_empty : ClonerState :=
  { cache := fun _ => none, fetch_calls := 0, dump_calls := 0,
    sig_counter := 0 }

/-- A state whose cache holds, for key 7, a `Cloned` outcome with the old
delegated snapshot and signature 99. -/
def state_cached : ClonerState :=
  { cache := fun k =>
      if k = 7 then some (.Cloned snap_delegated_old 99) else none,
    fetch_calls := 0, dump_calls := 0, sig_counter := 0 }

/-- `worker_base` with cloning fully disabled and key 7 blacklisted. -/
def worker_disabled_blacklisted : RemoteAccountClonerWorker :=
  { worker_base with
    permissions := permissions_none,
    blacklisted_accounts := [7] }

/-- `worker_base` with key 7 blacklisted. -/
def worker_blacklisted : RemoteAccountClonerWorker :=
  { worker_base with blacklisted_accounts := [7] }

/-- `worker_base` whose internal account provider holds key 7. -/
def worker_local : RemoteAccountClonerWorker :=
  { worker_base with iapHasAccount := fun k => k == 7 }

/-- `worker_base` with refresh enabled and a subscription confirmed at
slot 200, so the fetcher's slot-20 snapshots are always stale. -/
def worker_stale : RemoteAccountClonerWorker :=
  { worker_base with
    permissions := { permissions_all with allow_cloning_refresh := true },
    getFirstSubscribedSlot := fun _ => some 200 }

/-- `worker_base` whose fetcher always fails with error payload 3. -/
def worker_fetch_error : RemoteAccountClonerWorker :=
  { worker_base with fetcher := fun _ _ _ => .error 3 }

/-- `worker_base` with a last known update slot of 5 (so slot-10 cache
entries are fresh). -/
def worker_update5 : RemoteAccountClonerWorker :=
  { worker_base with getLastKnownUpdateSlot := fun _ => some 5 }

/-- A state whose cache holds, for key 7, a permanent `Unclonable`
outcome. -/
def state_unclonable : ClonerState :=
  { cache := fun k =>
      if k = 7 then some (.Unclonable 7 .IsBlacklisted u64MAX) else none,
    fetch_calls := 0, dump_calls := 0, sig_counter := 0 }

/-- `worker_stale` with the subscription slot lowered to 20, so the
fetcher's slot-20 snapshots are fresh. -/
def worker_fresh : RemoteAccountClonerWorker :=
  { worker_stale with getFirstSubscribedSlot := fun _ => some 20 }

/-- An account with an implausibly large balance (`u64::MAX`
lamports). -/
def account_rich : Account :=
  { lamports := u64MAX, owner := 50, executable := false, data := [] }

/-- A non-executable account owned by the upgradable BPF loader (a
program-data account). -/
def account_progdata : Account :=
  { lamports := 10, owner := bpf_loader_upgradeable_ID,
    executable := false, data := [] }

/-- `worker_base` with key 7 blacklisted and an internal account
provider holding a blacklisted account, an over-rich account and a
program-data account. -/
def worker_hydrate : RemoteAccountClonerWorker :=
  { worker_base with
    blacklisted_accounts := [7],
    iapAllAccounts :=
      [(7, account_plain), (8, account_rich), (9, account_progdata)] }

/-- A worker with the allowed-program set and the program-cloning
permission replaced, all other configuration and collaborators
unchanged (used to state that delegated cloning never consults those
two settings). -/
def with_program_checks (w : RemoteAccountClonerWorker)
    (api : Option (List Pubkey)) (b : Bool) : RemoteAccountClonerWorker :=
  { w with
    allowed_program_ids := api,
    permissions :=
      { w.permissions with allow_cloning_program_accounts := b } }

/-! ## Helper lemmas about the state discipline of the fetch phase -/

/-- Unfolding equation of the retry loop when the current fetcher call
succeeds. -/
theorem fetch_with_retries_eq_ok (w : RemoteAccountClonerWorker)
    (pubkey : Pubkey) (st : ClonerState) (fetch_count : Nat)
    (s : AccountChainSnapshot)
    (hf : w.fetcher st.fetch_calls pubkey (w.getFirstSubscribedSlot pubkey)
      = .ok s) :
    fetch_with_retries w pubkey st fetch_count =
      if s.at_slot ≥ (w.getFirstSubscribedSlot pubkey).getD u64MAX then
        (.ok s, { st with fetch_calls := st.fetch_calls + 1 })
      else if fetch_count ≥ w.fetch_retries then
        (.error .FailedToFetchSatisfactorySlot,
         { st with fetch_calls := st.fetch_calls + 1 })
      else
        fetch_with_retries w pubkey
          { st with fetch_calls := st.fetch_calls + 1 }
          (fetch_count + 1) := by
  conv_lhs => unfold fetch_with_retries
  simp [fetch_account_chain_snapshot, hf]

/-- Unfolding equation of the retry loop when the current fetcher call
fails. -/
theorem fetch_with_retries_eq_error (w : RemoteAccountClonerWorker)
    (pubkey : Pubkey) (st : ClonerState) (fetch_count : Nat) (e : Nat)
    (hf : w.fetcher st.fetch_calls pubkey (w.getFirstSubscribedSlot pubkey)
      = .error e) :
    fetch_with_retries w pubkey st fetch_count =
      if fetch_count ≥ w.fetch_retries then
        (.error (.AccountFetcherError e),
         { st with fetch_calls := st.fetch_calls + 1 })
      else
        fetch_with_retries w pubkey
          { st with fetch_calls := st.fetch_calls + 1 }
          (fetch_count + 1) := by
  conv_lhs => unfold fetch_with_retries
  simp [fetch_account_chain_snapshot, hf]

/-- Auxiliary induction for the retry loop: the loop never touches the
cache, the dump counter or the signature counter, performs at most
`fetch_retries - fetch_count + 1` fetcher calls, and only returns
snapshots that satisfy the freshness acceptance test. -/
theorem fetch_with_retries_state_aux (w : RemoteAccountClonerWorker)
    (pubkey : Pubkey) :
    ∀ (n fetch_count : Nat) (st : ClonerState),
      w.fetch_retries - fetch_count ≤ n →
      (fetch_with_retries w pubkey st fetch_count).2.cache = st.cache ∧
      (fetch_with_retries w pubkey st fetch_count).2.dump_calls
        = st.dump_calls ∧
      (fetch_with_retries w pubkey st fetch_count).2.sig_counter
        = st.sig_counter ∧
      (fetch_with_retries w pubkey st fetch_count).2.fetch_calls
        ≤ st.fetch_calls + (w.fetch_retries - fetch_count) + 1 ∧
      (∀ s, (fetch_with_retries w pubkey st fetch_count).1 = .ok s →
        s.at_slot ≥ (w.getFirstSubscribedSlot pubkey).getD u64MAX) := by
  intro n
  induction n with
  | zero =>
    intro fetch_count st h
    rcases hf : w.fetcher st.fetch_calls pubkey
        (w.getFirstSubscribedSlot pubkey) with e | s
    · rw [fetch_with_retries_eq_error w pubkey st fetch_count e hf,
        if_pos (by omega)]
      exact ⟨rfl, rfl, rfl,
        by show st.fetch_calls + 1 ≤ _; omega,
        by intro s h2; simp at h2⟩
    · rw [fetch_with_retries_eq_ok w pubkey st fetch_count s hf]
      by_cases hfresh :
        s.at_slot ≥ (w.getFirstSubscribedSlot pubkey).getD u64MAX
      · rw [if_pos hfresh]
        refine ⟨rfl, rfl, rfl,
          by show st.fetch_calls + 1 ≤ _; omega, ?_⟩
        intro s2 h2
        obtain rfl : s = s2 := by simpa using h2
        exact hfresh
      · rw [if_neg hfresh, if_pos (by omega)]
        exact ⟨rfl, rfl, rfl,
          by show st.fetch_calls + 1 ≤ _; omega,
          by intro s2 h2; simp at h2⟩
  | succ n ih =>
    intro fetch_count st h
    rcases hf : w.fetcher st.fetch_calls pubkey
        (w.getFirstSubscribedSlot pubkey) with e | s
    · rw [fetch_with_retries_eq_error w pubkey st fetch_count e hf]
      by_cases hc : fetch_count ≥ w.fetch_retries
      · rw [if_pos hc]
        exact ⟨rfl, rfl, rfl,
          by show st.fetch_calls + 1 ≤ _; omega,
          by intro s2 h2; simp at h2⟩
      · rw [if_neg hc]
        obtain ⟨h1, h2, h3, h4, h5⟩ := ih (fetch_count + 1)
          { st with fetch_calls := st.fetch_calls + 1 } (by omega)
        refine ⟨h1, h2, h3, ?_, h5⟩
        simp only at h4
        omega
    · rw [fetch_with_retries_eq_ok w pubkey st fetch_count s hf]
      by_cases hfresh :
        s.at_slot ≥ (w.getFirstSubscribedSlot pubkey).getD u64MAX
      · rw [if_pos hfresh]
        refine ⟨rfl, rfl, rfl,
          by show st.fetch_calls + 1 ≤ _; omega, ?_⟩
        intro s2 h2
        obtain rfl : s = s2 := by simpa using h2
        exact hfresh
      · rw [if_neg hfresh]
        by_cases hc : fetch_count ≥ w.fetch_retries
        · rw [if_pos hc]
          exact ⟨rfl, rfl, rfl,
            by show st.fetch_calls + 1 ≤ _; omega,
            by intro s2 h2; simp at h2⟩
        · rw [if_neg hc]
          obtain ⟨h1, h2, h3, h4, h5⟩ := ih (fetch_count + 1)
            { st with fetch_calls := st.fetch_calls + 1 } (by omega)
          refine ⟨h1, h2, h3, ?_, h5⟩
          simp only at h4
          omega

/-- The retry loop leaves the cache untouched. -/
theorem fetch_with_retries_cache (w : RemoteAccountClonerWorker)
    (pubkey : Pubkey) (st : ClonerState) (fetch_count : Nat) :
    (fetch_with_retries w pubkey st fetch_count).2.cache = st.cache :=
  (fetch_with_retries_state_aux w pubkey _ fetch_count st le_rfl).1

/-- The retry loop never invokes the dumper. -/
theorem fetch_with_retries_dump (w : RemoteAccountClonerWorker)
    (pubkey : Pubkey) (st : ClonerState) (fetch_count : Nat) :
    (fetch_with_retries w pubkey st fetch_count).2.dump_calls
      = st.dump_calls :=
  (fetch_with_retries_state_aux w pubkey _ fetch_count st le_rfl).2.1

/-- The retry loop does not consume unique signatures. -/
theorem fetch_with_retries_sig (w : RemoteAccountClonerWorker)
    (pubkey : Pubkey) (st : ClonerState) (fetch_count : Nat) :
    (fetch_with_retries w pubkey st fetch_count).2.sig_counter
      = st.sig_counter :=
  (fetch_with_retries_state_aux w pubkey _ fetch_count st le_rfl).2.2.1

/-- A snapshot returned by the retry loop passes the freshness test. -/
theorem fetch_with_retries_fresh (w : RemoteAccountClonerWorker)
    (pubkey : Pubkey) (st : ClonerState) (fetch_count : Nat)
    (s : AccountChainSnapshot)
    (h : (fetch_with_retries w pubkey st fetch_count).1 = .ok s) :
    s.at_slot ≥ (w.getFirstSubscribedSlot pubkey).getD u64MAX :=
  (fetch_with_retries_state_aux w pubkey _ fetch_count st le_rfl).2.2.2.2
    s h

/-- One iteration of the retry loop: a fresh successful fetch is accepted
immediately, with exactly one fetcher call. -/
theorem fetch_with_retries_accepts_fresh (w : RemoteAccountClonerWorker)
    (pubkey : Pubkey) (st : ClonerState) (fetch_count : Nat)
    (s : AccountChainSnapshot)
    (hf : w.fetcher st.fetch_calls pubkey (w.getFirstSubscribedSlot pubkey)
      = .ok s)
    (hfresh : s.at_slot ≥ (w.getFirstSubscribedSlot pubkey).getD u64MAX) :
    fetch_with_retries w pubkey st fetch_count
      = (.ok s, { st with fetch_calls := st.fetch_calls + 1 }) := by
  rw [fetch_with_retries_eq_ok w pubkey st fetch_count s hf,
    if_pos hfresh]

/-- One iteration of the retry loop at the last allowed attempt: a stale
successful fetch surfaces `FailedToFetchSatisfactorySlot`. -/
theorem fetch_with_retries_last_stale (w : RemoteAccountClonerWorker)
    (pubkey : Pubkey) (st : ClonerState) (fetch_count : Nat)
    (s : AccountChainSnapshot)
    (hlast : fetch_count ≥ w.fetch_retries)
    (hf : w.fetcher st.fetch_calls pubkey (w.getFirstSubscribedSlot pubkey)
      = .ok s)
    (hstale : s.at_slot < (w.getFirstSubscribedSlot pubkey).getD u64MAX) :
    fetch_with_retries w pubkey st fetch_count
      = (.error .FailedToFetchSatisfactorySlot,
         { st with fetch_calls := st.fetch_calls + 1 }) := by
  rw [fetch_with_retries_eq_ok w pubkey st fetch_count s hf,
    if_neg (Nat.not_le.mpr hstale), if_pos hlast]

/-- One iteration of the retry loop at the last allowed attempt: a fetch
error is propagated (wrapped as `AccountFetcherError`). -/
theorem fetch_with_retries_last_error (w : RemoteAccountClonerWorker)
    (pubkey : Pubkey) (st : ClonerState) (fetch_count : Nat) (e : Nat)
    (hlast : fetch_count ≥ w.fetch_retries)
    (hf : w.fetcher st.fetch_calls pubkey (w.getFirstSubscribedSlot pubkey)
      = .error e) :
    fetch_with_retries w pubkey st fetch_count
      = (.error (.AccountFetcherError e),
         { st with fetch_calls := st.fetch_calls + 1 }) := by
  rw [fetch_with_retries_eq_error w pubkey st fetch_count e hf,
    if_pos hlast]

/-- The snapshot-acquisition phase leaves the cache, the dump counter and
the signature counter untouched. -/
theorem acquire_snapshot_state (w : RemoteAccountClonerWorker)
    (st : ClonerState) (pubkey : Pubkey) :
    (acquire_snapshot w st pubkey).2.cache = st.cache ∧
    (acquire_snapshot w st pubkey).2.dump_calls = st.dump_calls ∧
    (acquire_snapshot w st pubkey).2.sig_counter = st.sig_counter := by
  unfold acquire_snapshot
  split
  · split
    · simp
    · exact ⟨fetch_with_retries_cache .., fetch_with_retries_dump ..,
        fetch_with_retries_sig ..⟩
  · simp [fetch_account_chain_snapshot]

/-- Fee-payer dumping does not touch the cache. -/
theorem do_clone_feepayer_account_cache (w : RemoteAccountClonerWorker)
    (st : ClonerState) (pubkey : Pubkey) (lamports : Nat) (owner : Pubkey) :
    (do_clone_feepayer_account w st pubkey lamports owner).2.cache
      = st.cache := rfl

/-- Undelegated dumping does not touch the cache. -/
theorem do_clone_undelegated_account_cache (w : RemoteAccountClonerWorker)
    (st : ClonerState) (pubkey : Pubkey) (account : Account) :
    (do_clone_undelegated_account w st pubkey account).2.cache
      = st.cache := rfl

/-- Delegated dumping (or signature reuse) does not touch the cache. -/
theorem do_clone_delegated_account_cache (w : RemoteAccountClonerWorker)
    (st : ClonerState) (pubkey : Pubkey) (account : Account)
    (owner : Pubkey) (delegation_slot : Slot) :
    (do_clone_delegated_account w st pubkey account owner
      delegation_slot).2.cache = st.cache := by
  unfold do_clone_delegated_account
  split <;> rfl

/-- Fetching an IDL snapshot does not touch the cache. -/
theorem try_fetch_program_idl_snapshot_cache (w : RemoteAccountClonerWorker)
    (st : ClonerState) (program_idl_pubkey : Option Pubkey)
    (min_context_slot : Option Slot) :
    (try_fetch_program_idl_snapshot w st program_idl_pubkey
      min_context_slot).2.cache = st.cache := by
  unfold try_fetch_program_idl_snapshot
  split
  · split
    · rename_i heq
      have h2 := congrArg (fun p : _ × ClonerState => p.2.cache) heq
      simpa [fetch_account_chain_snapshot] using h2.symm
    · rename_i heq
      have h2 := congrArg (fun p : _ × ClonerState => p.2.cache) heq
      simp only [fetch_account_chain_snapshot] at h2
      split <;> simpa using h2.symm
  · rfl

/-- The IDL lookup does not touch the cache. -/
theorem fetch_program_idl_cache (w : RemoteAccountClonerWorker)
    (st : ClonerState) (program_id_pubkey : Pubkey)
    (min_context_slot : Option Slot) :
    (fetch_program_idl w st program_id_pubkey min_context_slot).2.cache
      = st.cache := by
  unfold fetch_program_idl
  split
  · rename_i heq
    have h2 := congrArg (fun p : _ × ClonerState => p.2.cache) heq
    simpa [try_fetch_program_idl_snapshot_cache] using h2.symm
  · rename_i heq
    have h2 := congrArg (fun p : _ × ClonerState => p.2.cache) heq
    simpa [try_fetch_program_idl_snapshot_cache] using h2.symm
  · rename_i heq
    have h2 := congrArg (fun p : _ × ClonerState => p.2.cache) heq
    simp [try_fetch_program_idl_snapshot_cache] at h2
    split <;>
      (rename_i heq2
       have h3 := congrArg (fun p : _ × ClonerState => p.2.cache) heq2
       simp [try_fetch_program_idl_snapshot_cache] at h3
       simp [← h3, ← h2])

/-- Program dumping does not touch the cache. -/
theorem do_clone_program_accounts_cache (w : RemoteAccountClonerWorker)
    (st : ClonerState) (pubkey : Pubkey) (account : Account)
    (min_context_slot : Option Slot) :
    (do_clone_program_accounts w st pubkey account
      min_context_slot).2.cache = st.cache := by
  unfold do_clone_program_accounts
  split
  · rfl
  · split
    · rfl
    · split
      · rename_i heq
        have h2 := congrArg (fun p : _ × ClonerState => p.2.cache) heq
        simpa [fetch_account_chain_snapshot] using h2.symm
      · rename_i heq
        have h2 := congrArg (fun p : _ × ClonerState => p.2.cache) heq
        simp [fetch_account_chain_snapshot] at h2
        split
        · simpa using h2.symm
        · split <;>
            (rename_i heq2
             have h3 := congrArg (fun p : _ × ClonerState => p.2.cache) heq2
             simp [fetch_program_idl_cache] at h3
             simp [← h3, ← h2])

/-- `do_clone` never writes the cache, whatever the outcome. -/
theorem do_clone_cache (w : RemoteAccountClonerWorker) (st : ClonerState)
    (pubkey : Pubkey) (stage : ValidatorStage) :
    (do_clone w st pubkey stage).2.cache = st.cache := by
  unfold do_clone
  split
  · rfl
  · split
    · rename_i heq
      have h2 := congrArg (fun p : _ × ClonerState => p.2.cache) heq
      simpa [(acquire_snapshot_state w st pubkey).1] using h2.symm
    · rename_i heq
      have h2 := congrArg (fun p : _ × ClonerState => p.2.cache) heq
      simp [(acquire_snapshot_state w st pubkey).1] at h2
      split
      · split
        · simp [← h2]
        · split <;>
            (rename_i heq2
             have h3 := congrArg (fun p : _ × ClonerState => p.2.cache) heq2
             simp [do_clone_feepayer_account_cache] at h3
             simp [← h3, ← h2])
      · split
        · split
          · simp [← h2]
          · split
            · simp [← h2]
            · split <;>
                (rename_i heq2
                 have h3 :=
                   congrArg (fun p : _ × ClonerState => p.2.cache) heq2
                 simp [do_clone_program_accounts_cache] at h3
                 simp [← h3, ← h2])
        · split
          · simp [← h2]
          · split <;>
              (rename_i heq2
               have h3 :=
                 congrArg (fun p : _ × ClonerState => p.2.cache) heq2
               simp [do_clone_undelegated_account_cache] at h3
               simp [← h3, ← h2])
      · split
        · simp [← h2]
        · split
          · simp [← h2]
          · split <;>
              (rename_i heq2
               have h3 :=
                 congrArg (fun p : _ × ClonerState => p.2.cache) heq2
               simp [do_clone_delegated_account_cache] at h3
               simp [← h3, ← h2])

end Cloner

namespace Cloner

/-! ## Claim theorems -/

/-- Shared helper for the delegated-reuse claims: with the key not
blacklisted, a successful acquisition of a `Delegated` snapshot,
delegated cloning allowed, the stage check true, and a cached `Cloned`
outcome whose snapshot is `Delegated` at the same delegation slot,
`do_clone` returns the freshly acquired snapshot paired with the prior
signature and the post-acquisition state unchanged. -/
theorem do_clone_delegated_reuse_aux (w : RemoteAccountClonerWorker)
    (st : ClonerState) (pubkey : Pubkey) (stage : ValidatorStage)
    (snap : AccountChainSnapshot) (acc : Account)
    (rec : DelegationRecord) (st1 : ClonerState)
    (oldSnap : AccountChainSnapshot) (oldAcc : Account)
    (oldRec : DelegationRecord) (oldSig : Signature)
    (hb : w.blacklisted_accounts.contains pubkey = false)
    (hacq : acquire_snapshot w st pubkey = (.ok snap, st1))
    (hcs : snap.chain_state = .Delegated acc rec)
    (hperm : w.permissions.allow_cloning_delegated_accounts = true)
    (hstage : should_clone_delegated_account stage rec = true)
    (hcache : st.cache pubkey = some (.Cloned oldSnap oldSig))
    (hold : oldSnap.chain_state = .Delegated oldAcc oldRec)
    (hslot : oldRec.delegation_slot = rec.delegation_slot) :
    do_clone w st pubkey stage = (.ok (.Cloned snap oldSig), st1) := by
  have hb2 : pubkey ∉ w.blacklisted_accounts := by simpa using hb
  have hst1cache : st1.cache = st.cache := by
    have h2 := (acquire_snapshot_state w st pubkey).1
    rw [hacq] at h2
    exact h2
  unfold do_clone
  simp [hb2, hacq, hcs, hperm, hstage, do_clone_delegated_account,
    delegated_reuse_signature, hst1cache, hcache, hold, hslot]



/-- C1: Cache fast path.  For every key with at least one permission bit
set, if the cache holds a `Cloned` outcome whose snapshot slot is at
least the last known update slot (defaulting to 0 when unknown), or an
`Unclonable` outcome whose validity slot is at least that update slot,
then `do_clone_or_use_cache` returns exactly the cached outcome and
leaves the state untouched: no fetcher call, no dumper call, no cache
write. -/
theorem do_clone_or_use_cache_fast_path (w : RemoteAccountClonerWorker)
    (st : ClonerState) (pubkey : Pubkey) (hc : can_clone w = true) :
    (∀ snapshot signature,
      st.cache pubkey = some (.Cloned snapshot signature) →
      snapshot.at_slot ≥ (w.getLastKnownUpdateSlot pubkey).getD 0 →
      do_clone_or_use_cache w st pubkey
        = (.ok (.Cloned snapshot signature), st)) ∧
    (∀ p reason until_slot,
      st.cache pubkey = some (.Unclonable p reason until_slot) →
      until_slot ≥ (w.getLastKnownUpdateSlot pubkey).getD 0 →
      do_clone_or_use_cache w st pubkey
        = (.ok (.Unclonable p reason until_slot), st)) := by
  constructor
  · intro snapshot signature hcache hfresh
    unfold do_clone_or_use_cache
    simp [hc, hcache, hfresh]
  · intro p reason until_slot hcache hfresh
    unfold do_clone_or_use_cache
    simp [hc, hcache, hfresh]

/-- C1 witness: concrete cache hits, both for a `Cloned` entry and for an
`Unclonable` entry. -/
theorem do_clone_or_use_cache_fast_path_witness :
    do_clone_or_use_cache worker_update5 state_cached 7
      = (.ok (.Cloned snap_delegated_old 99), state_cached) ∧
    do_clone_or_use_cache worker_update5 state_unclonable 7
      = (.ok (.Unclonable 7 .IsBlacklisted u64MAX), state_unclonable) :=
  ⟨(do_clone_or_use_cache_fast_path worker_update5 state_cached 7
      (by decide)).1 snap_delegated_old 99 (by decide) (by decide),
   (do_clone_or_use_cache_fast_path worker_update5 state_unclonable 7
      (by decide)).2 7 .IsBlacklisted u64MAX (by decide) (by decide)⟩

/-- C5 counterexample: with all four permission bits false and key 7
blacklisted and uncached, the request returns `NoCloningAllowed`, not
`IsBlacklisted`: the `can_clone` short-circuit in
`do_clone_or_use_cache` runs before `do_clone`'s blacklist check. -/
theorem blacklist_precedence_cex :
    do_clone_or_use_cache worker_disabled_blacklisted state_empty 7
      = (.ok (.Unclonable 7 .NoCloningAllowed u64MAX), state_empty) ∧
    (do_clone_or_use_cache worker_disabled_blacklisted state_empty 7).1
      ≠ .ok (.Unclonable 7 .IsBlacklisted u64MAX) := by
  exact ⟨rfl, by decide⟩

/-- C5 (amended): for a blacklisted key with at least one permission bit
set, no cached outcome and no local copy of the account, the request
returns `Unclonable(IsBlacklisted, u64::MAX)` (and caches it); the
blacklist check runs before the fetch and before every per-kind
permission check, so the reason is `IsBlacklisted`.  When no permission
bit is set the `NoCloningAllowed` short-circuit wins instead. -/
theorem blacklisted_uncached_returns_is_blacklisted
    (w : RemoteAccountClonerWorker) (st : ClonerState) (pubkey : Pubkey)
    (hc : can_clone w = true)
    (hcache : st.cache pubkey = none)
    (hlocal : w.iapHasAccount pubkey = false)
    (hb : w.blacklisted_accounts.contains pubkey = true) :
    do_clone_or_use_cache w st pubkey
      = (.ok (.Unclonable pubkey .IsBlacklisted u64MAX),
         { st with cache := fun k =>
            if k = pubkey then some (.Unclonable pubkey .IsBlacklisted u64MAX)
            else st.cache k }) := by
  unfold do_clone_or_use_cache
  simp [hc, hcache, hlocal]
  have hb2 : pubkey ∈ w.blacklisted_accounts := by simpa using hb
  unfold do_clone_and_update_cache do_clone
  simp [hb2]

/-- C5 witness: concrete blacklisted key with permissions granted. -/
theorem blacklisted_uncached_returns_is_blacklisted_witness :
    do_clone_or_use_cache worker_blacklisted state_empty 7
      = (.ok (.Unclonable 7 .IsBlacklisted u64MAX),
         { state_empty with cache := fun k =>
            if k = 7 then some (.Unclonable 7 .IsBlacklisted u64MAX)
            else state_empty.cache k }) :=
  blacklisted_uncached_returns_is_blacklisted worker_blacklisted
    state_empty 7 (by decide) (by decide) (by decide) (by decide)

/-- C6 counterexample: for an uncached key the local bank already holds,
the request returns `Unclonable(AlreadyLocallyOverriden, u64::MAX)` but
does **not** write it into the cache: the cache entry for key 7 is still
absent afterwards. -/
theorem locally_overridden_no_cache_write_cex :
    (do_clone_or_use_cache worker_local state_empty 7).1
      = .ok (.Unclonable 7 .AlreadyLocallyOverriden u64MAX) ∧
    (do_clone_or_use_cache worker_local state_empty 7).2.cache 7
      = none := by
  exact ⟨by decide, by decide⟩

/-- C6 (amended): for every key with at least one permission bit set, no
cache entry, and a local copy in the internal account provider,
`do_clone_or_use_cache` returns `Unclonable(AlreadyLocallyOverriden,
u64::MAX)` without calling the fetcher and without writing the cache
(the state is returned untouched). -/
theorem locally_overridden_shortcut (w : RemoteAccountClonerWorker)
    (st : ClonerState) (pubkey : Pubkey)
    (hc : can_clone w = true)
    (hcache : st.cache pubkey = none)
    (hlocal : w.iapHasAccount pubkey = true) :
    do_clone_or_use_cache w st pubkey
      = (.ok (.Unclonable pubkey .AlreadyLocallyOverriden u64MAX), st) := by
  unfold do_clone_or_use_cache
  simp [hc, hcache, hlocal]

/-- C6 witness: concrete locally-held key. -/
theorem locally_overridden_shortcut_witness :
    do_clone_or_use_cache worker_local state_empty 7
      = (.ok (.Unclonable 7 .AlreadyLocallyOverriden u64MAX),
         state_empty) :=
  locally_overridden_shortcut worker_local state_empty 7 (by decide)
    (by decide) (by decide)

/-- C7: Refresh-error atomicity.  Whenever `do_clone` returns an error,
`do_clone_and_update_cache` propagates exactly that error and the cache
is unchanged: errors are never stored in the cache. -/
theorem refresh_error_atomicity (w : RemoteAccountClonerWorker)
    (st : ClonerState) (pubkey : Pubkey) (stage : ValidatorStage)
    (e : AccountClonerError) (st2 : ClonerState)
    (h : do_clone w st pubkey stage = (.error e, st2)) :
    do_clone_and_update_cache w st pubkey stage = (.error e, st2) ∧
    st2.cache = st.cache := by
  constructor
  · unfold do_clone_and_update_cache
    simp [h]
  · have h2 := do_clone_cache w st pubkey stage
    rw [h] at h2
    exact h2

/-- C7 witness: a concrete fetcher failure propagates and leaves the
cache untouched. -/
theorem refresh_error_atomicity_witness :
    do_clone_and_update_cache worker_fetch_error state_empty 7 .Running
      = (.error (.AccountFetcherError 3),
         { state_empty with fetch_calls := 1 }) ∧
    ({ state_empty with fetch_calls := 1 } : ClonerState).cache
      = state_empty.cache :=
  refresh_error_atomicity worker_fetch_error state_empty 7 .Running
    (.AccountFetcherError 3) { state_empty with fetch_calls := 1 } rfl

end Cloner

namespace Cloner

/-- C2: Delegated-reuse signature rule.  For a key whose cached outcome
is `Cloned` with a `Delegated` snapshot at delegation slot d, a refresh
that acquires a `Delegated` snapshot at the same d (with delegated
cloning allowed and the stage check true) does not invoke the dumper and
returns an outcome whose signature equals the prior outcome's
signature. -/
theorem delegated_reuse_signature_rule (w : RemoteAccountClonerWorker)
    (st : ClonerState) (pubkey : Pubkey) (stage : ValidatorStage)
    (snap : AccountChainSnapshot) (acc : Account)
    (rec : DelegationRecord) (st1 : ClonerState)
    (oldSnap : AccountChainSnapshot) (oldAcc : Account)
    (oldRec : DelegationRecord) (oldSig : Signature)
    (hb : w.blacklisted_accounts.contains pubkey = false)
    (hacq : acquire_snapshot w st pubkey = (.ok snap, st1))
    (hcs : snap.chain_state = .Delegated acc rec)
    (hperm : w.permissions.allow_cloning_delegated_accounts = true)
    (hstage : should_clone_delegated_account stage rec = true)
    (hcache : st.cache pubkey = some (.Cloned oldSnap oldSig))
    (hold : oldSnap.chain_state = .Delegated oldAcc oldRec)
    (hslot : oldRec.delegation_slot = rec.delegation_slot) :
    do_clone w st pubkey stage = (.ok (.Cloned snap oldSig), st1) ∧
    st1.dump_calls = st.dump_calls := by
  refine ⟨do_clone_delegated_reuse_aux w st pubkey stage snap acc rec st1
    oldSnap oldAcc oldRec oldSig hb hacq hcs hperm hstage hcache hold
    hslot, ?_⟩
  have h2 := (acquire_snapshot_state w st pubkey).2.1
  rw [hacq] at h2
  exact h2

/-- C2 witness: a concrete refresh over a cached delegated clone at the
same delegation slot 42 reuses signature 99 and performs no dump. -/
theorem delegated_reuse_signature_rule_witness :
    do_clone worker_base state_cached 7 .Running
      = (.ok (.Cloned snap_delegated_new 99),
         { state_cached with fetch_calls := 1 }) ∧
    ({ state_cached with fetch_calls := 1 } : ClonerState).dump_calls
      = state_cached.dump_calls :=
  delegated_reuse_signature_rule worker_base state_cached 7 .Running
    snap_delegated_new account_plain record42
    { state_cached with fetch_calls := 1 }
    snap_delegated_old account_plain record42 99
    (by decide) rfl rfl (by decide) (by decide) rfl rfl rfl

/-- C3 counterexample: in the delegated-reuse case the cache entry for
key 7 **is** rewritten by the refresh: afterwards it holds the newly
fetched slot-20 snapshot (with the prior signature 99), not the slot-10
snapshot that was stored before. -/
theorem delegated_reuse_cache_preservation_cex :
    (do_clone_or_use_cache worker_base state_cached 7).2.cache 7
      = some (.Cloned snap_delegated_new 99) ∧
    (do_clone_or_use_cache worker_base state_cached 7).2.cache 7
      ≠ state_cached.cache 7 := by
  exact ⟨by decide, by decide⟩

/-- C3 (amended): in the delegated-reuse case the refresh rewrites the
cache entry for the key with the newly acquired `Delegated` snapshot
while preserving the prior outcome's signature, and the dumper is not
invoked. -/
theorem delegated_reuse_cache_rewrite (w : RemoteAccountClonerWorker)
    (st : ClonerState) (pubkey : Pubkey) (stage : ValidatorStage)
    (snap : AccountChainSnapshot) (acc : Account)
    (rec : DelegationRecord) (st1 : ClonerState)
    (oldSnap : AccountChainSnapshot) (oldAcc : Account)
    (oldRec : DelegationRecord) (oldSig : Signature)
    (hb : w.blacklisted_accounts.contains pubkey = false)
    (hacq : acquire_snapshot w st pubkey = (.ok snap, st1))
    (hcs : snap.chain_state = .Delegated acc rec)
    (hperm : w.permissions.allow_cloning_delegated_accounts = true)
    (hstage : should_clone_delegated_account stage rec = true)
    (hcache : st.cache pubkey = some (.Cloned oldSnap oldSig))
    (hold : oldSnap.chain_state = .Delegated oldAcc oldRec)
    (hslot : oldRec.delegation_slot = rec.delegation_slot) :
    do_clone_and_update_cache w st pubkey stage
      = (.ok (.Cloned snap oldSig),
         { st1 with cache := fun k =>
            if k = pubkey then some (.Cloned snap oldSig)
            else st1.cache k }) ∧
    st1.dump_calls = st.dump_calls := by
  have hdo := do_clone_delegated_reuse_aux w st pubkey stage snap acc rec
    st1 oldSnap oldAcc oldRec oldSig hb hacq hcs hperm hstage hcache hold
    hslot
  constructor
  · unfold do_clone_and_update_cache
    simp [hdo]
  · have h2 := (acquire_snapshot_state w st pubkey).2.1
    rw [hacq] at h2
    exact h2

/-- C3 witness: the concrete delegated-reuse refresh rewrites the cache
entry with the new snapshot and the old signature. -/
theorem delegated_reuse_cache_rewrite_witness :
    do_clone_and_update_cache worker_base state_cached 7 .Running
      = (.ok (.Cloned snap_delegated_new 99),
         { { state_cached with fetch_calls := 1 } with
            cache := fun k =>
              if k = 7 then some (.Cloned snap_delegated_new 99)
              else ({ state_cached with
                fetch_calls := 1 } : ClonerState).cache k }) ∧
    ({ state_cached with fetch_calls := 1 } : ClonerState).dump_calls
      = state_cached.dump_calls :=
  delegated_reuse_cache_rewrite worker_base state_cached 7 .Running
    snap_delegated_new account_plain record42
    { state_cached with fetch_calls := 1 }
    snap_delegated_old account_plain record42 99
    (by decide) rfl rfl (by decide) (by decide) rfl rfl rfl

end Cloner

namespace Cloner

/-- C4: Fetch-with-freshness loop.  With refresh allowed, `fetch_retries
= 5` and monitoring ensured, the acquisition phase makes at most five
fetcher calls; a fetched snapshot is accepted exactly when its slot is
at least the first subscribed slot (`u64::MAX` when absent): a fresh
success returns immediately, while at the fifth attempt a stale success
surfaces `FailedToFetchSatisfactorySlot` and a fetcher error is
propagated. -/
theorem fetch_with_freshness_spec (w : RemoteAccountClonerWorker)
    (pubkey : Pubkey) (h5 : w.fetch_retries = 5)
    (hr : w.permissions.allow_cloning_refresh = true)
    (hm : w.ensureAccountMonitoring pubkey = .ok ()) :
    (∀ st, (acquire_snapshot w st pubkey).2.fetch_calls
        ≤ st.fetch_calls + 5) ∧
    (∀ st s, (acquire_snapshot w st pubkey).1 = .ok s →
        s.at_slot ≥ (w.getFirstSubscribedSlot pubkey).getD u64MAX) ∧
    (∀ st fetch_count s,
        w.fetcher st.fetch_calls pubkey (w.getFirstSubscribedSlot pubkey)
          = .ok s →
        s.at_slot ≥ (w.getFirstSubscribedSlot pubkey).getD u64MAX →
        fetch_with_retries w pubkey st fetch_count
          = (.ok s, { st with fetch_calls := st.fetch_calls + 1 })) ∧
    (∀ st s,
        w.fetcher st.fetch_calls pubkey (w.getFirstSubscribedSlot pubkey)
          = .ok s →
        s.at_slot < (w.getFirstSubscribedSlot pubkey).getD u64MAX →
        fetch_with_retries w pubkey st 5
          = (.error .FailedToFetchSatisfactorySlot,
             { st with fetch_calls := st.fetch_calls + 1 })) ∧
    (∀ st e,
        w.fetcher st.fetch_calls pubkey (w.getFirstSubscribedSlot pubkey)
          = .error e →
        fetch_with_retries w pubkey st 5
          = (.error (.AccountFetcherError e),
             { st with fetch_calls := st.fetch_calls + 1 })) := by
  refine ⟨?_, ?_, ?_, ?_, ?_⟩
  · intro st
    unfold acquire_snapshot
    simp only [hr, hm, if_true]
    have h2 := (fetch_with_retries_state_aux w pubkey
      (w.fetch_retries - 1) 1 st le_rfl).2.2.2.1
    omega
  · intro st s h
    unfold acquire_snapshot at h
    simp only [hr, hm, if_true] at h
    exact fetch_with_retries_fresh w pubkey st 1 s h
  · intro st fetch_count s hf hfresh
    exact fetch_with_retries_accepts_fresh w pubkey st fetch_count s hf
      hfresh
  · intro st s hf hstale
    exact fetch_with_retries_last_stale w pubkey st 5 s (by omega) hf
      hstale
  · intro st e hf
    exact fetch_with_retries_last_error w pubkey st 5 e (by omega) hf

/-- C4 witness: with the always-stale worker five fetches happen and the
fifth stale success yields `FailedToFetchSatisfactorySlot`; with the
fresh worker the first attempt is accepted. -/
theorem fetch_with_freshness_spec_witness :
    (acquire_snapshot worker_stale state_empty 7).2.fetch_calls
      ≤ state_empty.fetch_calls + 5 ∧
    fetch_with_retries worker_stale 7 state_empty 5
      = (.error .FailedToFetchSatisfactorySlot,
         { state_empty with fetch_calls := 1 }) ∧
    fetch_with_retries worker_fresh 7 state_empty 1
      = (.ok snap_delegated_new,
         { state_empty with fetch_calls := 1 }) :=
  ⟨(fetch_with_freshness_spec worker_stale 7 rfl rfl rfl).1 state_empty,
   (fetch_with_freshness_spec worker_stale 7 rfl rfl
      rfl).2.2.2.1 state_empty snap_delegated_new rfl (by decide),
   (fetch_with_freshness_spec worker_fresh 7 rfl rfl
      rfl).2.2.1 state_empty 1 snap_delegated_new rfl (by decide)⟩

/-- C8: Hydration delegation predicate.  `should_clone_delegated_account`
is true in stage `Running`; in stage `Hydrating` it compares the
record's authority with the validator identity when the authority is
set, and otherwise compares the locally observed owner with the
record's owner; and whenever it is false (with delegated cloning
allowed) `do_clone` returns a synthetic `Cloned` outcome carrying the
fetched snapshot and a fresh unique signature, without invoking the
dumper. -/
theorem should_clone_delegated_spec :
    (∀ record, should_clone_delegated_account .Running record = true) ∧
    (∀ vi ao record, record.authority ≠ 0 →
        should_clone_delegated_account (.Hydrating vi ao) record
          = decide (record.authority ≠ vi)) ∧
    (∀ vi ao record, record.authority = 0 →
        should_clone_delegated_account (.Hydrating vi ao) record
          = decide (ao ≠ record.owner)) ∧
    (∀ (w : RemoteAccountClonerWorker) st pubkey stage snap acc rec st1,
        w.blacklisted_accounts.contains pubkey = false →
        acquire_snapshot w st pubkey = (.ok snap, st1) →
        snap.chain_state = .Delegated acc rec →
        w.permissions.allow_cloning_delegated_accounts = true →
        should_clone_delegated_account stage rec = false →
        do_clone w st pubkey stage
          = (.ok (.Cloned snap st1.sig_counter),
             { st1 with sig_counter := st1.sig_counter + 1 }) ∧
        st1.dump_calls = st.dump_calls) := by
  refine ⟨fun record => rfl, ?_, ?_, ?_⟩
  · intro vi ao record ha
    simp [should_clone_delegated_account, ha]
  · intro vi ao record ha
    simp [should_clone_delegated_account, ha]
  · intro w st pubkey stage snap acc rec st1 hb hacq hcs hperm hstage
    have hb2 : pubkey ∉ w.blacklisted_accounts := by simpa using hb
    have hdump : st1.dump_calls = st.dump_calls := by
      have h2 := (acquire_snapshot_state w st pubkey).2.1
      rw [hacq] at h2
      exact h2
    refine ⟨?_, hdump⟩
    unfold do_clone
    simp [hb2, hacq, hcs, hperm, hstage]

/-- C8 witness: stage `Running` always clones; during hydration an
authority-less record delegated to an account whose local owner matches
the record owner is not re-cloned, and `do_clone` then emits the
synthetic `Cloned` outcome with a fresh signature and no dump. -/
theorem should_clone_delegated_spec_witness :
    should_clone_delegated_account .Running record42 = true ∧
    should_clone_delegated_account (.Hydrating 1 50) record42
      = decide ((50 : Nat) ≠ 50) ∧
    (do_clone worker_base state_empty 7 (.Hydrating 1 50)
        = (.ok (.Cloned snap_delegated_new 0),
           { state_empty with fetch_calls := 1, sig_counter := 1 }) ∧
      ({ state_empty with fetch_calls := 1 } : ClonerState).dump_calls
        = state_empty.dump_calls) :=
  ⟨should_clone_delegated_spec.1 record42,
   should_clone_delegated_spec.2.2.1 1 50 record42 rfl,
   should_clone_delegated_spec.2.2.2 worker_base state_empty 7
     (.Hydrating 1 50) snap_delegated_new account_plain record42
     { state_empty with fetch_calls := 1 }
     (by decide) rfl rfl (by decide) (by decide)⟩

end Cloner

namespace Cloner

/-- In a pair list with pairwise-distinct keys, the value under a key is
unique. -/
theorem mem_eq_of_nodup_keys {α β : Type} :
    ∀ (l : List (α × β)) (p : α) (a b : β),
      (l.map Prod.fst).Nodup → (p, a) ∈ l → (p, b) ∈ l → a = b := by
  intro l
  induction l with
  | nil => simp
  | cons hd tl ih =>
    intro p a b hnd ha hb
    rcases hd with ⟨hp, hv⟩
    simp only [List.map_cons, List.nodup_cons] at hnd
    rcases List.mem_cons.mp ha with ha1 | ha2 <;>
      rcases List.mem_cons.mp hb with hb1 | hb2
    · injection ha1 with h1 h2
      injection hb1 with h3 h4
      rw [h2, h4]
    · exfalso
      apply hnd.1
      injection ha1 with h1 h2
      rw [← h1]
      simpa using List.mem_map_of_mem Prod.fst hb2
    · exfalso
      apply hnd.1
      injection hb1 with h1 h2
      rw [← h1]
      simpa using List.mem_map_of_mem Prod.fst ha2
    · exact ih p a b hnd.2 ha2 hb2

/-- C9: Hydration filter.  `hydrate` iterates exactly over
`hydrate_entries`, and no blacklisted key ever appears there; moreover,
when the provider's keys are pairwise distinct, an account with more
than `u64::MAX / 2` lamports, or a non-executable account owned by the
upgradable BPF loader, contributes no hydrate entry either, so
hydration never initiates cloning (hence never dumps) for any of the
three filtered classes. -/
theorem hydrate_filter_spec (w : RemoteAccountClonerWorker) :
    (∀ p, w.blacklisted_accounts.contains p = true →
        ∀ o, (p, o) ∉ hydrate_entries w) ∧
    (∀ p acc, (w.iapAllAccounts.map Prod.fst).Nodup →
        (p, acc) ∈ w.iapAllAccounts →
        (acc.lamports > u64MAX / 2 ∨
          (acc.executable = false ∧
            acc.owner = bpf_loader_upgradeable_ID)) →
        ∀ o, (p, o) ∉ hydrate_entries w) := by
  constructor
  · intro p hbl o hmem
    unfold hydrate_entries at hmem
    rw [List.mem_dedup] at hmem
    rcases List.mem_map.mp hmem with ⟨pa, hpa, hpao⟩
    rcases List.mem_filter.mp hpa with ⟨hpa2, _⟩
    rcases List.mem_filter.mp hpa2 with ⟨_, hbl2⟩
    have hp1 : pa.1 = p := congrArg Prod.fst hpao
    rw [hp1] at hbl2
    rw [hbl] at hbl2
    simp at hbl2
  · intro p acc hnd hmem hbad o hment
    unfold hydrate_entries at hment
    rw [List.mem_dedup] at hment
    rcases List.mem_map.mp hment with ⟨pa, hpa, hpao⟩
    rcases List.mem_filter.mp hpa with ⟨hpa2, hq⟩
    rcases List.mem_filter.mp hpa2 with ⟨hin, _⟩
    have hp1 : pa.1 = p := congrArg Prod.fst hpao
    have hpacc : pa.2 = acc := by
      apply mem_eq_of_nodup_keys w.iapAllAccounts p pa.2 acc hnd
      · rw [← hp1]
        exact hin
      · exact hmem
    rw [hpacc] at hq
    by_cases hl : acc.lamports > u64MAX / 2
    · rw [if_pos hl] at hq
      simp at hq
    · rw [if_neg hl] at hq
      rcases hbad with hbad | hbad
      · exact hl hbad
      · rw [if_pos (by simp [hbad.1, hbad.2])] at hq
        simp at hq

/-- C9 witness: in the concrete hydrate worker, the blacklisted key 7,
the over-rich key 8 and the program-data key 9 contribute no hydrate
entry. -/
theorem hydrate_filter_spec_witness :
    (7, 50) ∉ hydrate_entries worker_hydrate ∧
    (8, 50) ∉ hydrate_entries worker_hydrate ∧
    (9, bpf_loader_upgradeable_ID) ∉ hydrate_entries worker_hydrate :=
  ⟨(hydrate_filter_spec worker_hydrate).1 7 (by decide) 50,
   (hydrate_filter_spec worker_hydrate).2 8 account_rich (by decide)
     (by decide) (Or.inl (by decide)) 50,
   (hydrate_filter_spec worker_hydrate).2 9 account_progdata (by decide)
     (by decide) (Or.inr (by decide)) bpf_loader_upgradeable_ID⟩

end Cloner

namespace Cloner

/-- The retry loop reads only the fetcher, the subscription oracle and
the retry budget: two workers agreeing on those fields run it
identically. -/
theorem fetch_with_retries_congr (w w2 : RemoteAccountClonerWorker)
    (pubkey : Pubkey)
    (hf : w2.fetcher = w.fetcher)
    (hs : w2.getFirstSubscribedSlot = w.getFirstSubscribedSlot)
    (hr : w2.fetch_retries = w.fetch_retries) :
    ∀ (n fetch_count : Nat) (st : ClonerState),
      w.fetch_retries - fetch_count ≤ n →
      fetch_with_retries w2 pubkey st fetch_count
        = fetch_with_retries w pubkey st fetch_count := by
  intro n
  induction n with
  | zero =>
    intro fetch_count st h
    rcases hfet : w.fetcher st.fetch_calls pubkey
        (w.getFirstSubscribedSlot pubkey) with e | s
    · rw [fetch_with_retries_eq_error w pubkey st fetch_count e hfet,
        fetch_with_retries_eq_error w2 pubkey st fetch_count e
          (by rw [hf, hs]; exact hfet),
        hr, if_pos (by omega), if_pos (by omega)]
    · rw [fetch_with_retries_eq_ok w pubkey st fetch_count s hfet,
        fetch_with_retries_eq_ok w2 pubkey st fetch_count s
          (by rw [hf, hs]; exact hfet),
        hs, hr]
      by_cases hfresh :
        s.at_slot ≥ (w.getFirstSubscribedSlot pubkey).getD u64MAX
      · rw [if_pos hfresh, if_pos hfresh]
      · rw [if_neg hfresh, if_neg hfresh, if_pos (by omega),
          if_pos (by omega)]
  | succ n ih =>
    intro fetch_count st h
    rcases hfet : w.fetcher st.fetch_calls pubkey
        (w.getFirstSubscribedSlot pubkey) with e | s
    · rw [fetch_with_retries_eq_error w pubkey st fetch_count e hfet,
        fetch_with_retries_eq_error w2 pubkey st fetch_count e
          (by rw [hf, hs]; exact hfet),
        hr]
      by_cases hc : fetch_count ≥ w.fetch_retries
      · rw [if_pos hc, if_pos hc]
      · rw [if_neg hc, if_neg hc]
        exact ih (fetch_count + 1)
          { st with fetch_calls := st.fetch_calls + 1 } (by omega)
    · rw [fetch_with_retries_eq_ok w pubkey st fetch_count s hfet,
        fetch_with_retries_eq_ok w2 pubkey st fetch_count s
          (by rw [hf, hs]; exact hfet),
        hs, hr]
      by_cases hfresh :
        s.at_slot ≥ (w.getFirstSubscribedSlot pubkey).getD u64MAX
      · rw [if_pos hfresh, if_pos hfresh]
      · rw [if_neg hfresh, if_neg hfresh]
        by_cases hc : fetch_count ≥ w.fetch_retries
        · rw [if_pos hc, if_pos hc]
        · rw [if_neg hc, if_neg hc]
          exact ih (fetch_count + 1)
            { st with fetch_calls := st.fetch_calls + 1 } (by omega)

/-- The acquisition phase reads only the refresh permission, the
monitoring oracle, the fetcher, the subscription oracle and the retry
budget: two workers agreeing on those fields acquire identically. -/
theorem acquire_snapshot_congr (w w2 : RemoteAccountClonerWorker)
    (st : ClonerState) (pubkey : Pubkey)
    (hf : w2.fetcher = w.fetcher)
    (hs : w2.getFirstSubscribedSlot = w.getFirstSubscribedSlot)
    (hr : w2.fetch_retries = w.fetch_retries)
    (hm : w2.ensureAccountMonitoring = w.ensureAccountMonitoring)
    (hrf : w2.permissions.allow_cloning_refresh
      = w.permissions.allow_cloning_refresh) :
    acquire_snapshot w2 st pubkey = acquire_snapshot w st pubkey := by
  unfold acquire_snapshot
  rw [hrf, hm]
  by_cases href : w.permissions.allow_cloning_refresh
  · simp only [href, if_true]
    rcases w.ensureAccountMonitoring pubkey with e | u
    · rfl
    · exact fetch_with_retries_congr w w2 pubkey hf hs hr _ 1 st le_rfl
  · simp only [href, Bool.false_eq_true, if_false]
    unfold fetch_account_chain_snapshot
    rw [hf]

end Cloner

namespace Cloner

/-- C10: for a snapshot whose chain state is `Delegated`, `do_clone`
never consults the allowed-programs set or the program-cloning
permission — replacing both leaves the result unchanged — and it never
returns `Unclonable` with reason `IsNotAnAllowedProgram` or
`DoesNotAllowProgramAccount`, even when the delegated account is
executable; conversely those two reasons can only arise from an
`Undelegated` snapshot whose account is executable. -/
theorem delegated_ignores_program_checks (w : RemoteAccountClonerWorker)
    (st : ClonerState) (pubkey : Pubkey) (stage : ValidatorStage)
    (api : Option (List Pubkey)) (b : Bool)
    (snap : AccountChainSnapshot) (acc : Account)
    (rec : DelegationRecord) (st1 : ClonerState)
    (hacq : acquire_snapshot w st pubkey = (.ok snap, st1))
    (hcs : snap.chain_state = .Delegated acc rec) :
    (do_clone (with_program_checks w api b) st pubkey stage
      = do_clone w st pubkey stage) ∧
    (∀ out st2, do_clone w st pubkey stage = (.ok out, st2) →
      ∀ p slot,
        out ≠ .Unclonable p .IsNotAnAllowedProgram slot ∧
        out ≠ .Unclonable p .DoesNotAllowProgramAccount slot) := by
  have hacq2 : acquire_snapshot (with_program_checks w api b) st pubkey
      = (.ok snap, st1) := by
    rw [acquire_snapshot_congr w (with_program_checks w api b) st pubkey
      rfl rfl rfl rfl rfl]
    exact hacq
  have e1 : (with_program_checks w api b).blacklisted_accounts
      = w.blacklisted_accounts := rfl
  have e2 : (with_program_checks w api b).permissions.allow_cloning_delegated_accounts
      = w.permissions.allow_cloning_delegated_accounts := rfl
  have e3 : (with_program_checks w api b).dumpDelegatedAccount
      = w.dumpDelegatedAccount := rfl
  constructor
  · unfold do_clone
    by_cases hbl : pubkey ∈ w.blacklisted_accounts
    · simp [hbl, e1]
    · simp [hbl, e1, e2, e3, hacq, hacq2, hcs,
        do_clone_delegated_account, delegated_reuse_signature]
  · intro out st2 hdo p slot
    unfold do_clone at hdo
    by_cases hbl : pubkey ∈ w.blacklisted_accounts
    · simp [hbl, Prod.ext_iff] at hdo
      rw [← hdo.1]
      constructor <;> simp
    · simp [hbl, hacq, hcs] at hdo
      by_cases hperm : w.permissions.allow_cloning_delegated_accounts
        = true
      · simp [hperm] at hdo
        by_cases hsc : should_clone_delegated_account stage rec = true
        · simp [hsc] at hdo
          rcases hrun : do_clone_delegated_account w st1 pubkey acc
              rec.owner rec.delegation_slot with ⟨v, st3⟩
          rw [hrun] at hdo
          cases v with
          | error e => simp [Prod.ext_iff] at hdo
          | ok signature =>
            simp [Prod.ext_iff] at hdo
            rw [← hdo.1]
            constructor <;> simp
        · simp [hsc, Prod.ext_iff] at hdo
          rw [← hdo.1]
          constructor <;> simp
      · simp [hperm, Prod.ext_iff] at hdo
        rw [← hdo.1]
        constructor <;> simp

/-- C10 witness: concretely, replacing the allowed-program set with a
set excluding key 7 and revoking the program permission leaves the
delegated clone unchanged, and the result carries neither
program-related refusal. -/
theorem delegated_ignores_program_checks_witness :
    (do_clone (with_program_checks worker_base (some [99]) false)
        state_empty 7 .Running
      = do_clone worker_base state_empty 7 .Running) ∧
    (∀ out st2,
      do_clone worker_base state_empty 7 .Running = (.ok out, st2) →
      ∀ p slot,
        out ≠ .Unclonable p .IsNotAnAllowedProgram slot ∧
        out ≠ .Unclonable p .DoesNotAllowProgramAccount slot) :=
  delegated_ignores_program_checks worker_base state_empty 7 .Running
    (some [99]) false snap_delegated_new account_plain record42
    { state_empty with fetch_calls := 1 } rfl rfl

end Cloner
